import Mathlib

/-!
Verification of the expo-passkey server core.

Shallow embedding of server-side code of the expo-passkey repository:
the WebAuthn challenge endpoint (`src/server/endpoints/challenge.ts`),
the inactive-passkey cleanup job (`src/server/utils/cleanup.ts`), the
client native-module capability cache (`src/client/native-module`), and
— modelled from the specification where the source file is absent from
the corpus — the replay check of the authentication ceremony and metadata
merge, and the consume operation of the challenge store.

Time is modelled as milliseconds (`Int`); JavaScript `Date` values
become integers, `toISOString` timestamps are kept as the underlying
instant.  Store effects are made explicit: each embedded operation
returns the resulting store contents together with a record of the
writes it performed, so that "no write happened" is a provable
proposition.
-/

namespace ExpoPasskey

/-! ## Data model: credentials (passkeys) -/

/-- A persisted passkey credential row (model `authPasskey`). -/
structure Credential where
  id : String
  userId : String
  credentialId : String
  publicKey : String
  counter : Nat
  status : String
  createdAt : Int
  lastUsed : Int
  revokedAt : Option Int
  revokedReason : Option String
  updatedAt : Int
  metadata : Option String
  deriving Repr, DecidableEq

/-! ## Cleanup job (`src/server/utils/cleanup.ts`) -/

/-- One day in milliseconds, the units of the embedded clock. -/
def msPerDay : Int := 24 * 60 * 60 * 1000

/-- The behaviour of `ctx.adapter` as seen by `performCleanup`:
absent, present but without a usable `updateMany`, working, or a
`updateMany` that rejects with an error message. -/
inductive AdapterBehaviour where
  | missing
  | noUpdateMany
  | ok
  | failing (err : String)
  deriving Repr, DecidableEq

/-- Log lines emitted by the cleanup code, keeping only the shape the
spec talks about. -/
inductive CleanupLog where
  | warnSkipped
  | infoCleaned (n : Nat)
  | errorFailed (err : String)
  | debugIntervalDisabled
  deriving Repr, DecidableEq

/-- The update that the `updateMany` issued by `performCleanup` applies to one row
matching the `where` clause: `status := "revoked"`,
`revokedAt := now`, `revokedReason := "automatic_inactive"`,
`updatedAt := now`. -/
def revokeUpdate (now : Int) (c : Credential) : Credential :=
  { c with
    status := "revoked"
    revokedAt := some now
    revokedReason := some "automatic_inactive"
    updatedAt := now }

/-- The `where` clause of the cleanup `updateMany`:
`lastUsed < cutoff` and `status = "active"`. -/
def cleanupMatches (cutoff : Int) (c : Credential) : Bool :=
  decide (c.lastUsed < cutoff) && decide (c.status = "active")

/-- `updateMany` semantics for the cleanup sweep: every matching row is
rewritten with `revokeUpdate`, every other row is untouched. -/
def cleanupUpdateMany (now cutoff : Int) (creds : List Credential) :
    List Credential :=
  creds.map fun c => if cleanupMatches cutoff c then revokeUpdate now c else c

/-- Outcome of one `performCleanup` invocation: the resulting store,
the number of store write operations issued, and the log lines.  The
function itself never throws — a rejecting `updateMany` is caught and
logged — so the outcome type has no error component. -/
structure CleanupOutcome where
  creds : List Credential
  storeOps : Nat
  logs : List CleanupLog
  deriving Repr, DecidableEq

/-- Embedding of `performCleanup` from `src/server/utils/cleanup.ts`.
If the adapter is missing or has no `updateMany`, it warns and returns
without touching the store; otherwise it computes
`cutoff = now − inactiveDays` days and issues one `updateMany`, and a
rejection from the store is caught and logged (never rethrown). -/
def performCleanup (adapter : AdapterBehaviour) (now : Int)
    (inactiveDays : Int) (creds : List Credential) : CleanupOutcome :=
  match adapter with
  | .missing => ⟨creds, 0, [.warnSkipped]⟩
  | .noUpdateMany => ⟨creds, 0, [.warnSkipped]⟩
  | .failing err => ⟨creds, 1, [.errorFailed err]⟩
  | .ok =>
      let cutoff := now - inactiveDays * msPerDay
      let updated := cleanupUpdateMany now cutoff creds
      ⟨updated, 1, [.infoCleaned ((creds.filter (cleanupMatches cutoff)).length)]⟩

/-- The value `setupCleanupJob` hands back to its caller:
`undefined` (early return on `inactiveDays ≤ 0`), `null`
(interval disabled), or an interval timer handle. -/
inductive SetupReturn where
  | undef
  | null
  | intervalHandle
  deriving Repr, DecidableEq

/-- Options accepted by `setupCleanupJob`. -/
structure CleanupOptions where
  inactiveDays : Option Int := none
  disableInterval : Option Bool := none
  deriving Repr, DecidableEq

/-- Full observable outcome of `setupCleanupJob`: returned value,
whether the initial sweep ran, whether a recurring interval was
scheduled, and the effect of the startup sweep (store, write count,
logs). -/
structure SetupOutcome where
  ret : SetupReturn
  initialSweepRan : Bool
  intervalScheduled : Bool
  creds : List Credential
  storeOps : Nat
  logs : List CleanupLog
  deriving Repr, DecidableEq

/-- Embedding of `setupCleanupJob` from `src/server/utils/cleanup.ts`:
defaults `inactiveDays` to 30 and `disableInterval` to `false`;
returns immediately when `inactiveDays ≤ 0`; when `disableInterval`
is set, logs a debug line and returns `null` before running any
cleanup; otherwise runs one `performCleanup` now and schedules a
daily interval, returning the interval handle. -/
def setupCleanupJob (adapter : AdapterBehaviour) (now : Int)
    (options : CleanupOptions) (creds : List Credential) : SetupOutcome :=
  let inactiveDays := options.inactiveDays.getD 30
  let disableInterval := options.disableInterval.getD false
  if inactiveDays ≤ 0 then
    ⟨.undef, false, false, creds, 0, []⟩
  else if disableInterval then
    ⟨.null, false, false, creds, 0, [.debugIntervalDisabled]⟩
  else
    let r := performCleanup adapter now inactiveDays creds
    ⟨.intervalHandle, true, true, r.creds, r.storeOps, r.logs⟩

/-! ## Challenge endpoint (`src/server/endpoints/challenge.ts`) -/

/-- The url-safe base64 alphabet (RFC 4648 §5), as used by the Node
`Buffer.prototype.toString("base64url")` method. -/
def base64urlAlphabet : List Char :=
  "ABCDEFGHIJKLMNOPQRSTUVWXYZabcdefghijklmnopqrstuvwxyz0123456789-_".toList

/-- The url-safe base64 digit for a 6-bit value. -/
def b64Digit (n : Nat) : Char := base64urlAlphabet.getD n 'A'

/-- Url-safe base64 encoding of a byte sequence, unpadded, exactly as
produced by `buffer.toString("base64url")` in Node. -/
def base64urlEncode : List Nat → List Char
  | [] => []
  | [b1] => [b64Digit (b1 / 4), b64Digit (b1 % 4 * 16)]
  | [b1, b2] =>
      [b64Digit (b1 / 4), b64Digit (b1 % 4 * 16 + b2 / 16),
        b64Digit (b2 % 16 * 4)]
  | b1 :: b2 :: b3 :: rest =>
      b64Digit (b1 / 4) :: b64Digit (b1 % 4 * 16 + b2 / 16) ::
        b64Digit (b2 % 16 * 4 + b3 / 64) :: b64Digit (b3 % 64) ::
          base64urlEncode rest

/-- A persisted challenge row (model `passkeyChallenge`). -/
structure ChallengeRecord where
  id : String
  userId : String
  challenge : String
  type : String
  createdAt : Int
  expiresAt : Int
  registrationOptions : Option String
  deriving Repr, DecidableEq

/-- Typed errors the challenge endpoint can raise (`APIError` payloads
in the source). -/
inductive ChallengeApiError where
  | sessionRequired
  | userNotFound
  | challengeGenerationFailed
  deriving Repr, DecidableEq

/-- Inputs of the handler: the request body, the session as resolved by
the session fetcher (`none` both when there is no session and when the
fetch threw — the catch block maps a throw to `null`), the user table
lookup, the clock, the output of the id generator, and the 32 bytes
produced by `crypto.randomBytes(32)`. -/
structure ChallengeCtx where
  type : String
  bodyUserId : Option String := none
  registrationOptions : Option String := none
  sessionUserId : Option String := none
  userExists : String → Bool
  now : Int
  generatedId : String
  randomBytes : Fin 32 → Fin 256

/-- Observable outcome of one challenge-endpoint invocation: the JSON
response or thrown error, and the list of rows created in the store
(order of creation). -/
structure ChallengeOutcome where
  response : Except ChallengeApiError String
  created : List ChallengeRecord
  deriving Repr

/-- The 32 random bytes as a byte list, mirroring
`crypto.randomBytes(32)`. -/
def challengeRandomList (ctx : ChallengeCtx) : List Nat :=
  List.ofFn fun i => (ctx.randomBytes i).val

/-- The success path shared by both branches of the handler: encode 32
random bytes as url-safe base64, build the row with
`expiresAt = now + 5 * 60 * 1000`, persist it, and answer
`{ challenge }`. -/
def issueChallenge (ctx : ChallengeCtx) (userId : String) : ChallengeOutcome :=
  let challenge := String.mk (base64urlEncode (challengeRandomList ctx))
  let record : ChallengeRecord :=
    { id := ctx.generatedId
      userId := userId
      challenge := challenge
      type := ctx.type
      createdAt := ctx.now
      expiresAt := ctx.now + 5 * 60 * 1000
      registrationOptions := ctx.registrationOptions }
  ⟨Except.ok challenge, [record]⟩

/-- Embedding of the challenge endpoint handler from
`src/server/endpoints/challenge.ts`.  For `type = "registration"` the
session must carry a user id (else `UNAUTHORIZED`/`SESSION_REQUIRED`
is thrown before anything is written) and the user must exist (else
`USER_NOT_FOUND`); for other types the `userId` of the body is used, with
the `"auto-discovery"` sentinel when absent or empty (JS `||`). -/
def createChallengeHandler (ctx : ChallengeCtx) : ChallengeOutcome :=
  if ctx.type = "registration" then
    match ctx.sessionUserId with
    | none => ⟨Except.error ChallengeApiError.sessionRequired, []⟩
    | some uid =>
        if ctx.userExists uid then issueChallenge ctx uid
        else ⟨Except.error ChallengeApiError.userNotFound, []⟩
  else
    let userId :=
      match ctx.bodyUserId with
      | none => "auto-discovery"
      | some u => if u = "" then "auto-discovery" else u
    issueChallenge ctx userId

/-! ## Native capability cache (`src/client/native-module`) -/

/-- Behaviour of one `ExpoPasskeyModule.isPasskeySupported()` call:
it returns a boolean or throws. -/
inductive NativeCall where
  | returns (b : Bool)
  | throws
  deriving Repr, DecidableEq

/-- The module-level state of `native-module.ts`: the
`cachedIsSupported` variable and a count of native-bridge calls made
so far (for stating "invoked at most once"). -/
structure NativeModuleState where
  cachedIsSupported : Option Bool
  bridgeCalls : Nat
  deriving Repr, DecidableEq

/-- The state at module load: no cached value, no bridge call yet. -/
def initialNativeState : NativeModuleState := ⟨none, 0⟩

/-- Embedding of `isNativePasskeySupported` from
`src/client/native-module`: return the cached value when present;
otherwise invoke the native module once, cache and return its answer,
and on a throw cache and return `false`.  The function always returns
a boolean (the catch block swallows the error). -/
def isNativePasskeySupported (call : NativeCall) (s : NativeModuleState) :
    Bool × NativeModuleState :=
  match s.cachedIsSupported with
  | some b => (b, s)
  | none =>
      match call with
      | .returns b => (b, ⟨some b, s.bridgeCalls + 1⟩)
      | .throws => (false, ⟨some false, s.bridgeCalls + 1⟩)

/-- A sequence of `isNativePasskeySupported()` invocations in one
process, each with the behaviour the native bridge would have shown
had it been called at that point; returns the values observed by the
callers and the final module state. -/
def runSupportedCalls : List NativeCall → NativeModuleState →
    List Bool × NativeModuleState
  | [], s => ([], s)
  | c :: cs, s =>
      let (b, s') := isNativePasskeySupported c s
      let (bs, s'') := runSupportedCalls cs s'
      (b :: bs, s'')

/-- The boolean the first invocation settles on: the native answer, or
`false` when the native call throws. -/
def firstCallValue : NativeCall → Bool
  | .returns b => b
  | .throws => false

/-! ## Challenge store consumption

Modelled from the spec: the ceremony endpoints that consume challenges
(`src/server/endpoints/authenticate.ts` and the registration endpoint)
are not part of the corpus — only the unit tests of the authenticate endpoint are.  `ChallengeStore.consume` is therefore taken from §4.1 of
the spec: atomically locate a challenge matching the key, fail with
`ChallengeNotFound` if absent, with `ChallengeExpired` if past
`expiresAt` (discarding the record as a side effect), with
`ChallengeTypeMismatch` if the type disagrees, and otherwise delete it
in the same operation and return it. -/

/-- Typed errors of `ChallengeStore.consume` (§4.1, §7). -/
inductive ConsumeError where
  | challengeNotFound
  | challengeExpired
  | challengeTypeMismatch
  deriving Repr, DecidableEq

/-- Result of a consume: the verdict and the store contents after the
operation. -/
structure ConsumeOutcome where
  result : Except ConsumeError ChallengeRecord
  store : List ChallengeRecord

/-- Modelled from the spec: `consume` keyed by the opaque challenge
value.  It locates the first record whose `challenge` equals the key;
absence is `ChallengeNotFound`; a located record past its `expiresAt`
is `ChallengeExpired` and is discarded; a type disagreement is
`ChallengeTypeMismatch`; otherwise the record is deleted in the same
operation (compare-and-delete) and returned. -/
def consumeChallenge (now : Int) (key : String) (ctype : String)
    (store : List ChallengeRecord) : ConsumeOutcome :=
  match store.find? (fun c => c.challenge = key) with
  | none => ⟨Except.error ConsumeError.challengeNotFound, store⟩
  | some c =>
      if c.expiresAt ≤ now then
        ⟨Except.error ConsumeError.challengeExpired,
          store.filter (fun d => d.id ≠ c.id)⟩
      else if c.type ≠ ctype then
        ⟨Except.error ConsumeError.challengeTypeMismatch, store⟩
      else
        ⟨Except.ok c, store.filter (fun d => d.id ≠ c.id)⟩

/-! ## Authentication ceremony: replay check and metadata merge

Modelled from the spec: `src/server/endpoints/authenticate.ts` is not
part of the corpus — only its unit tests are (the corpus file holding
`authenticatePasskey endpoint` tests).  Steps 4–5 of §4.3 are embedded
here: the counter replay check, which happens before any persistence,
and the metadata merge, which never aborts the ceremony.  The warning
behaviour on absent (`null`) metadata follows the unit tests of the endpoint, which assert that no warning is logged for `null` metadata and
that the "Failed to parse existing passkey metadata" warning is logged
exactly when the stored string does not parse as JSON. -/

/-- The stored `metadata` column as the JSON parse of the ceremony sees it:
absent (`null`/missing), a string parsing to a JSON object with the
given fields, or a string that fails to parse. -/
inductive StoredMetadata where
  | absent
  | object (fields : List (String × String))
  | corrupted (raw : String)
  deriving Repr, DecidableEq

/-- The passkey row as used by the authentication ceremony. -/
structure AuthPasskey where
  id : String
  userId : String
  credentialId : String
  publicKey : String
  counter : Nat
  status : String
  lastUsed : Int
  metadata : StoredMetadata
  deriving Repr, DecidableEq

/-- Errors raised by the embedded ceremony tail. -/
inductive AuthCeremonyError where
  | counterReplayDetected
  deriving Repr, DecidableEq

/-- Modelled from the spec (§4.3 step 5): parse the stored metadata;
absent or unparseable metadata is treated as the empty object, and a
parse failure (and only a parse failure, per the unit tests of the endpoint) records a warning.  Returns the fields and the warning flag. -/
def parseStoredMetadata : StoredMetadata → List (String × String) × Bool
  | .absent => ([], false)
  | .object fs => (fs, false)
  | .corrupted _ => ([], true)

/-- JavaScript object-spread merge on association lists: keys of `b`
win over keys of `a`; keys only in `a` keep their values. -/
def jsMerge (a b : List (String × String)) : List (String × String) :=
  a.filter (fun kv => (b.lookup kv.1).isNone) ++ b

/-- Rendering of an instant as a timestamp string (model of
`Date.prototype.toISOString`). -/
def isoTimestamp (t : Int) : String := toString t

/-- Modelled from the spec (§4.3 step 5): shallow-merge the request-supplied
metadata fields over the existing object and add a
`lastAuthenticationAt` timestamp. -/
def mergedAuthMetadata (existing body : List (String × String))
    (now : Int) : List (String × String) :=
  jsMerge (jsMerge existing body) [("lastAuthenticationAt", isoTimestamp now)]

/-- Outcome of the ceremony tail: the verdict (carrying the persisted
row on success), the credential store after the operation, the number
of credential writes performed, and the number of warnings logged. -/
structure AuthFinishOutcome where
  result : Except AuthCeremonyError AuthPasskey
  store : List AuthPasskey
  updates : Nat
  warnings : Nat

/-- Modelled from the spec (§4.3 step 5): the credential row as
persisted by a successful authentication — updated counter, updated
`lastUsed`, and the merged metadata blob. -/
def updatedPasskey (now : Int) (bodyMeta : List (String × String))
    (newCounter : Nat) (pk : AuthPasskey) : AuthPasskey :=
  { pk with
    counter := newCounter
    lastUsed := now
    metadata := StoredMetadata.object
      (mergedAuthMetadata (parseStoredMetadata pk.metadata).1 bodyMeta now) }

/-- Modelled from the spec (§4.3 steps 4–5): after the external
verifier has reported `newCounter` for the resolved credential `pk`,
reject with `CounterReplayDetected` when `newCounter ≤ pk.counter`
unless both are 0, before any persistence; otherwise parse and merge
metadata (never aborting) and persist the merged blob alongside the
updated `counter` and `lastUsed` in a single credential write. -/
def authFinish (now : Int) (bodyMeta : List (String × String))
    (newCounter : Nat) (pk : AuthPasskey) (store : List AuthPasskey) :
    AuthFinishOutcome :=
  if newCounter ≤ pk.counter ∧ ¬(newCounter = 0 ∧ pk.counter = 0) then
    ⟨Except.error AuthCeremonyError.counterReplayDetected, store, 0, 0⟩
  else
    let pk' := updatedPasskey now bodyMeta newCounter pk
    ⟨Except.ok pk', store.map (fun q => if q.id = pk.id then pk' else q),
      1, if (parseStoredMetadata pk.metadata).2 then 1 else 0⟩

/-! ## Concrete sample data for witnesses -/

/-- A concrete active credential, last used at instant 0. -/
def sampleCredential : Credential :=
  { id := "pk-1"
    userId := "user-123"
    credentialId := "cred-1"
    publicKey := "pubkey"
    counter := 5
    status := "active"
    createdAt := 0
    lastUsed := 0
    revokedAt := none
    revokedReason := none
    updatedAt := 0
    metadata := none }

/-! ## Theorems: cleanup scheduler -/

/-- Claim C8: when `setupCleanupJob` is called with `inactiveDays ≤ 0`
the cleanup feature is entirely disabled — zero store operations, no
initial sweep, no recurring sweep — for every adapter, clock, store
and `disableInterval` value. -/
theorem setupCleanupJob_nonpositive_days_disables_everything
    (adapter : AdapterBehaviour) (now d : Int) (b : Option Bool)
    (creds : List Credential) (hd : d ≤ 0) :
    setupCleanupJob adapter now ⟨some d, b⟩ creds =
      ⟨SetupReturn.undef, false, false, creds, 0, []⟩ := by
  simp [setupCleanupJob, hd]

/-- Witness for C8 at `inactiveDays = 0`, `disableInterval = true`. -/
theorem setupCleanupJob_nonpositive_days_disables_everything_witness :
    setupCleanupJob AdapterBehaviour.ok 0 ⟨some 0, some true⟩
        [sampleCredential] =
      ⟨SetupReturn.undef, false, false, [sampleCredential], 0, []⟩ :=
  setupCleanupJob_nonpositive_days_disables_everything
    AdapterBehaviour.ok 0 0 (some true) [sampleCredential] (by decide)

/-- Claim C4, counterexample: with `inactiveDays = 30 > 0` and
`disableInterval = true`, the job performs no startup sweep at all
(zero store operations, store untouched), contrary to the claimed
"exactly one cleanup sweep at startup".  The sample credential would
have been revoked by a sweep (it was last used 100 days before the
clock), yet the store is unchanged. -/
theorem setupCleanupJob_disableInterval_no_initial_sweep_counterexample :
    (setupCleanupJob AdapterBehaviour.ok (100 * msPerDay)
        ⟨some 30, some true⟩ [sampleCredential]).initialSweepRan = false ∧
    (setupCleanupJob AdapterBehaviour.ok (100 * msPerDay)
        ⟨some 30, some true⟩ [sampleCredential]).storeOps = 0 ∧
    (setupCleanupJob AdapterBehaviour.ok (100 * msPerDay)
        ⟨some 30, some true⟩ [sampleCredential]).creds = [sampleCredential] :=
  ⟨rfl, rfl, rfl⟩

/-- Claim C4, amended: when `setupCleanupJob` is called with
`inactiveDays > 0` and `disableInterval = true`, it performs no
cleanup sweep at all (not even the startup sweep), schedules no
recurring sweep, logs a debug line, leaves the store untouched and
returns `null`. -/
theorem setupCleanupJob_disableInterval_skips_all_cleanup
    (adapter : AdapterBehaviour) (now d : Int) (creds : List Credential)
    (hd : 0 < d) :
    setupCleanupJob adapter now ⟨some d, some true⟩ creds =
      ⟨SetupReturn.null, false, false, creds, 0,
        [CleanupLog.debugIntervalDisabled]⟩ := by
  simp [setupCleanupJob, not_le.mpr hd]

/-- Witness for the amended C4 at `inactiveDays = 30`. -/
theorem setupCleanupJob_disableInterval_skips_all_cleanup_witness :
    setupCleanupJob AdapterBehaviour.ok (100 * msPerDay)
        ⟨some 30, some true⟩ [sampleCredential] =
      ⟨SetupReturn.null, false, false, [sampleCredential], 0,
        [CleanupLog.debugIntervalDisabled]⟩ :=
  setupCleanupJob_disableInterval_skips_all_cleanup
    AdapterBehaviour.ok (100 * msPerDay) 30 [sampleCredential] (by decide)

/-- Claim C6: a cleanup sweep with a working adapter issues exactly one
`updateMany` and rewrites exactly the active credentials with
`lastUsed < now − inactiveDays` days, setting `status = "revoked"`,
`revokedReason = "automatic_inactive"` and `revokedAt = now` (plus the
bookkeeping `updatedAt`); every other credential is unchanged. -/
theorem performCleanup_revokes_exactly_inactive
    (now d : Int) (creds : List Credential) :
    (performCleanup AdapterBehaviour.ok now d creds).storeOps = 1 ∧
    (performCleanup AdapterBehaviour.ok now d creds).creds =
      creds.map (fun c =>
        if c.status = "active" ∧ c.lastUsed < now - d * msPerDay then
          { c with
            status := "revoked"
            revokedAt := some now
            revokedReason := some "automatic_inactive"
            updatedAt := now }
        else c) := by
  refine ⟨rfl, ?_⟩
  show cleanupUpdateMany now (now - d * msPerDay) creds = _
  unfold cleanupUpdateMany
  congr 1
  funext c
  by_cases h1 : c.status = "active" <;>
    by_cases h2 : c.lastUsed < now - d * msPerDay <;>
      simp [cleanupMatches, revokeUpdate, h1, h2]

/-- Claim C7: cleanup failures are contained.  A missing adapter or
one without `updateMany` makes the sweep log a warning and return with
zero store operations and the store untouched; a rejecting
`updateMany` is caught and logged, the store stays untouched, and the
scheduler still completes normally (the interval handle is returned
and the daily interval is scheduled). -/
theorem cleanup_failures_never_surface
    (now d : Int) (e : String) (creds : List Credential) (hd : 0 < d) :
    performCleanup AdapterBehaviour.missing now d creds =
      ⟨creds, 0, [CleanupLog.warnSkipped]⟩ ∧
    performCleanup AdapterBehaviour.noUpdateMany now d creds =
      ⟨creds, 0, [CleanupLog.warnSkipped]⟩ ∧
    performCleanup (AdapterBehaviour.failing e) now d creds =
      ⟨creds, 1, [CleanupLog.errorFailed e]⟩ ∧
    setupCleanupJob (AdapterBehaviour.failing e) now
        ⟨some d, some false⟩ creds =
      ⟨SetupReturn.intervalHandle, true, true, creds, 1,
        [CleanupLog.errorFailed e]⟩ := by
  refine ⟨rfl, rfl, rfl, ?_⟩
  simp [setupCleanupJob, performCleanup, not_le.mpr hd]

/-- Witness for C7 at `inactiveDays = 30` with a database error. -/
theorem cleanup_failures_never_surface_witness :
    performCleanup AdapterBehaviour.missing 0 30 [sampleCredential] =
      ⟨[sampleCredential], 0, [CleanupLog.warnSkipped]⟩ ∧
    performCleanup AdapterBehaviour.noUpdateMany 0 30 [sampleCredential] =
      ⟨[sampleCredential], 0, [CleanupLog.warnSkipped]⟩ ∧
    performCleanup (AdapterBehaviour.failing "Database error") 0 30
        [sampleCredential] =
      ⟨[sampleCredential], 1, [CleanupLog.errorFailed "Database error"]⟩ ∧
    setupCleanupJob (AdapterBehaviour.failing "Database error") 0
        ⟨some 30, some false⟩ [sampleCredential] =
      ⟨SetupReturn.intervalHandle, true, true, [sampleCredential], 1,
        [CleanupLog.errorFailed "Database error"]⟩ :=
  cleanup_failures_never_surface 0 30 "Database error" [sampleCredential]
    (by decide)

/-! ## Theorems: challenge endpoint -/

/-- A concrete request context for a registration challenge without an
authenticated session. -/
def sampleRegCtx : ChallengeCtx :=
  { type := "registration"
    bodyUserId := none
    registrationOptions := none
    sessionUserId := none
    userExists := fun _ => true
    now := 0
    generatedId := "generated-challenge-id"
    randomBytes := fun _ => 0 }

/-- A concrete request context for an authentication challenge with no
user id in the body. -/
def sampleAuthCtx : ChallengeCtx :=
  { type := "authentication"
    bodyUserId := none
    registrationOptions := none
    sessionUserId := none
    userExists := fun _ => true
    now := 1000
    generatedId := "generated-challenge-id"
    randomBytes := fun i => ⟨i.val, by omega⟩ }

/-- Claim C3: a registration challenge request without an
authenticated session identity fails with the `Unauthorized`
(`SESSION_REQUIRED`) error and creates no challenge row — the failure
happens before any store write. -/
theorem challenge_registration_requires_session (ctx : ChallengeCtx)
    (htype : ctx.type = "registration")
    (hsession : ctx.sessionUserId = none) :
    (createChallengeHandler ctx).response =
      Except.error ChallengeApiError.sessionRequired ∧
    (createChallengeHandler ctx).created = [] := by
  simp [createChallengeHandler, htype, hsession]

/-- Witness for C3 on a concrete unauthenticated registration
request. -/
theorem challenge_registration_requires_session_witness :
    (createChallengeHandler sampleRegCtx).response =
      Except.error ChallengeApiError.sessionRequired ∧
    (createChallengeHandler sampleRegCtx).created = [] :=
  challenge_registration_requires_session sampleRegCtx rfl rfl

/-- Helper: shape of the record persisted and the response returned by
the shared success path `issueChallenge`. -/
theorem issueChallenge_spec (ctx : ChallengeCtx) (uid ch : String)
    (h : (issueChallenge ctx uid).response = Except.ok ch) :
    ∃ rec : ChallengeRecord,
      (issueChallenge ctx uid).created = [rec] ∧
      rec.challenge = ch ∧
      rec.createdAt = ctx.now ∧
      rec.expiresAt = rec.createdAt + 5 * 60 * 1000 ∧
      ch = String.mk (base64urlEncode (challengeRandomList ctx)) ∧
      (challengeRandomList ctx).length = 32 := by
  have hch : String.mk (base64urlEncode (challengeRandomList ctx)) = ch := by
    simpa [issueChallenge] using h
  refine ⟨{ id := ctx.generatedId, userId := uid, challenge := ch,
            type := ctx.type, createdAt := ctx.now,
            expiresAt := ctx.now + 5 * 60 * 1000,
            registrationOptions := ctx.registrationOptions },
          ?_, rfl, rfl, rfl, hch.symm, ?_⟩
  · simp [issueChallenge, hch]
  · simp [challengeRandomList]

/-- Claim C9: every successfully issued challenge persists exactly one
row whose `expiresAt` is its `createdAt` plus exactly 5 minutes and
whose challenge value is the url-safe base64 encoding of the 32
random bytes drawn by the handler, and the success response carries
exactly that challenge string. -/
theorem challenge_success_shape (ctx : ChallengeCtx) (ch : String)
    (h : (createChallengeHandler ctx).response = Except.ok ch) :
    ∃ rec : ChallengeRecord,
      (createChallengeHandler ctx).created = [rec] ∧
      rec.challenge = ch ∧
      rec.createdAt = ctx.now ∧
      rec.expiresAt = rec.createdAt + 5 * 60 * 1000 ∧
      ch = String.mk (base64urlEncode (challengeRandomList ctx)) ∧
      (challengeRandomList ctx).length = 32 := by
  by_cases htype : ctx.type = "registration"
  · cases hsession : ctx.sessionUserId with
    | none => simp [createChallengeHandler, htype, hsession] at h
    | some uid =>
        by_cases huser : ctx.userExists uid = true
        · have heq : createChallengeHandler ctx = issueChallenge ctx uid := by
            simp [createChallengeHandler, htype, hsession, huser]
          rw [heq] at h ⊢
          exact issueChallenge_spec ctx uid ch h
        · simp [createChallengeHandler, htype, hsession, huser] at h
  · cases hbody : ctx.bodyUserId with
    | none =>
        have heq : createChallengeHandler ctx =
            issueChallenge ctx "auto-discovery" := by
          simp [createChallengeHandler, htype, hbody]
        rw [heq] at h ⊢
        exact issueChallenge_spec ctx _ ch h
    | some u =>
        by_cases hu : u = ""
        · have heq : createChallengeHandler ctx =
              issueChallenge ctx "auto-discovery" := by
            simp [createChallengeHandler, htype, hbody, hu]
          rw [heq] at h ⊢
          exact issueChallenge_spec ctx _ ch h
        · have heq : createChallengeHandler ctx = issueChallenge ctx u := by
            simp [createChallengeHandler, htype, hbody, hu]
          rw [heq] at h ⊢
          exact issueChallenge_spec ctx _ ch h

/-- Witness for C9 on a concrete authentication challenge request. -/
theorem challenge_success_shape_witness :
    ∃ rec : ChallengeRecord,
      (createChallengeHandler sampleAuthCtx).created = [rec] ∧
      rec.challenge =
        String.mk (base64urlEncode (challengeRandomList sampleAuthCtx)) ∧
      rec.createdAt = sampleAuthCtx.now ∧
      rec.expiresAt = rec.createdAt + 5 * 60 * 1000 ∧
      String.mk (base64urlEncode (challengeRandomList sampleAuthCtx)) =
        String.mk (base64urlEncode (challengeRandomList sampleAuthCtx)) ∧
      (challengeRandomList sampleAuthCtx).length = 32 :=
  challenge_success_shape sampleAuthCtx
    (String.mk (base64urlEncode (challengeRandomList sampleAuthCtx))) rfl

/-! ## Theorems: native capability cache -/

/-- Helper: once a value is cached, every later invocation returns it
without touching the native bridge or the state. -/
theorem runSupportedCalls_of_cached (b : Bool) :
    ∀ (cs : List NativeCall) (s : NativeModuleState),
      s.cachedIsSupported = some b →
      runSupportedCalls cs s = (List.replicate cs.length b, s)
  | [], s, _ => by simp [runSupportedCalls]
  | c :: cs, s, h => by
      have ih := runSupportedCalls_of_cached b cs s h
      simp [runSupportedCalls, isNativePasskeySupported, h, ih,
        List.replicate_succ]

/-- Claim C10: `isNativePasskeySupported` is immutable after first
read.  In any sequence of invocations starting from module load,
every invocation returns the boolean settled by the first one (so all
observed values coincide with the first), the native bridge is
invoked exactly once — hence at most once — and every invocation
returns a boolean (a throwing native call is swallowed and yields,
and caches, `false`). -/
theorem isNativePasskeySupported_immutable (c : NativeCall)
    (cs : List NativeCall) :
    (runSupportedCalls (c :: cs) initialNativeState).1 =
      List.replicate (cs.length + 1) (firstCallValue c) ∧
    (runSupportedCalls (c :: cs) initialNativeState).2.bridgeCalls = 1 ∧
    (runSupportedCalls (c :: cs) initialNativeState).2.cachedIsSupported =
      some (firstCallValue c) ∧
    firstCallValue NativeCall.throws = false := by
  have hfirst : isNativePasskeySupported c initialNativeState =
      (firstCallValue c, ⟨some (firstCallValue c), 1⟩) := by
    cases c <;> rfl
  have hrest := runSupportedCalls_of_cached (firstCallValue c) cs
    ⟨some (firstCallValue c), 1⟩ rfl
  refine ⟨?_, ?_, ?_, rfl⟩ <;>
    simp [runSupportedCalls, hfirst, hrest, List.replicate_succ]

/-! ## Theorems: challenge consumption -/

/-- A concrete authentication challenge row for the consume witness. -/
def sampleChallengeRow : ChallengeRecord :=
  { id := "challenge-id"
    userId := "user-123"
    challenge := "test-challenge"
    type := "authentication"
    createdAt := 0
    expiresAt := 300000
    registrationOptions := none }

/-- Claim C2: consumption is at-most-once.  In a store whose challenge
values are unique (as issued values are, being 256-bit fresh random
strings), once a `consume` with a given key succeeds — deleting the
record — any second `consume` with the same key fails with
`ChallengeNotFound` and leaves the store exactly as the first consume
left it, regardless of the clock or expected type of the second
attempt. -/
theorem consume_at_most_once (now now2 : Int) (key ctype ctype2 : String)
    (store : List ChallengeRecord) (c : ChallengeRecord)
    (huniq : ∀ d₁ ∈ store, ∀ d₂ ∈ store,
      d₁.challenge = key → d₂.challenge = key → d₁ = d₂)
    (hok : (consumeChallenge now key ctype store).result = Except.ok c) :
    (consumeChallenge now2 key ctype2
        (consumeChallenge now key ctype store).store).result =
      Except.error ConsumeError.challengeNotFound ∧
    (consumeChallenge now2 key ctype2
        (consumeChallenge now key ctype store).store).store =
      (consumeChallenge now key ctype store).store := by
  cases hfind : store.find? (fun d => d.challenge = key) with
  | none =>
      have hres : (consumeChallenge now key ctype store).result =
          Except.error ConsumeError.challengeNotFound := by
        unfold consumeChallenge; rw [hfind]
      rw [hres] at hok
      simp at hok
  | some c0 =>
      have hmem : c0 ∈ store := List.mem_of_find?_eq_some hfind
      have hc0 : c0.challenge = key := by
        have := List.find?_some hfind
        simpa using this
      by_cases hexp : c0.expiresAt ≤ now
      · have hres : (consumeChallenge now key ctype store).result =
            Except.error ConsumeError.challengeExpired := by
          unfold consumeChallenge; rw [hfind]; simp [hexp]
        rw [hres] at hok
        simp at hok
      · by_cases htype : c0.type ≠ ctype
        · have hres : (consumeChallenge now key ctype store).result =
              Except.error ConsumeError.challengeTypeMismatch := by
            unfold consumeChallenge; rw [hfind]; simp [hexp, htype]
          rw [hres] at hok
          simp at hok
        · have hstep : consumeChallenge now key ctype store =
              ⟨Except.ok c0, store.filter (fun d => d.id ≠ c0.id)⟩ := by
            unfold consumeChallenge; rw [hfind]; simp [hexp, htype]
          have hnone : (store.filter (fun d => d.id ≠ c0.id)).find?
              (fun d => d.challenge = key) = none := by
            rw [List.find?_eq_none]
            intro d hd
            have hdmem : d ∈ store := List.mem_of_mem_filter hd
            have hdid : ¬(d.id = c0.id) := by
              have := List.of_mem_filter hd
              simpa using this
            intro hdkey
            have hdk : d.challenge = key := by simpa using hdkey
            exact hdid (congrArg ChallengeRecord.id
              (huniq d hdmem c0 hmem hdk hc0))
          rw [hstep]
          unfold consumeChallenge
          rw [hnone]
          exact ⟨rfl, rfl⟩

/-- Witness for C2: the sample challenge is consumed once at time 1000
and a second consume with the same key fails with `ChallengeNotFound`
on the now-empty store. -/
theorem consume_at_most_once_witness :
    (consumeChallenge 2000 "test-challenge" "authentication"
        (consumeChallenge 1000 "test-challenge" "authentication"
          [sampleChallengeRow]).store).result =
      Except.error ConsumeError.challengeNotFound ∧
    (consumeChallenge 2000 "test-challenge" "authentication"
        (consumeChallenge 1000 "test-challenge" "authentication"
          [sampleChallengeRow]).store).store =
      (consumeChallenge 1000 "test-challenge" "authentication"
        [sampleChallengeRow]).store :=
  consume_at_most_once 1000 2000 "test-challenge" "authentication"
    "authentication" [sampleChallengeRow] sampleChallengeRow
    (by
      intro d₁ h₁ d₂ h₂ _ _
      rw [List.mem_singleton] at h₁ h₂
      rw [h₁, h₂])
    rfl

/-! ## Theorems: authentication ceremony -/

/-- A concrete active passkey with stored counter 5 and valid
metadata. -/
def sampleAuthPasskey : AuthPasskey :=
  { id := "passkey-id"
    userId := "user-123"
    credentialId := "test-credential-id"
    publicKey := "base64-encoded-key"
    counter := 5
    status := "active"
    lastUsed := 0
    metadata := StoredMetadata.object [("deviceName", "iPhone 14")] }

/-- The sample passkey with stored counter 0 (non-counting
authenticator). -/
def zeroCounterPasskey : AuthPasskey :=
  { sampleAuthPasskey with counter := 0 }

/-- The zero-counter sample passkey with `null` stored metadata. -/
def nullMetaPasskey : AuthPasskey :=
  { zeroCounterPasskey with metadata := StoredMetadata.absent }

/-- The zero-counter sample passkey with unparseable stored
metadata. -/
def corruptedMetaPasskey : AuthPasskey :=
  { zeroCounterPasskey with
    metadata := StoredMetadata.corrupted "not-valid-json" }

/-- Claim C1: on an authentication ceremony with stored counter `c`
and verifier-reported counter `n`, if `n ≤ c` and not both are 0, the
ceremony fails with `CounterReplayDetected`, the store (hence the
credential record) is returned unchanged and zero credential writes
are performed — the replay check precedes any persistence; and if
`n = 0` and `c = 0` the ceremony succeeds and the persisted counter
remains 0. -/
theorem counter_replay_check (now : Int) (bodyMeta : List (String × String))
    (n : Nat) (pk : AuthPasskey) (store : List AuthPasskey) :
    (n ≤ pk.counter → ¬(n = 0 ∧ pk.counter = 0) →
      authFinish now bodyMeta n pk store =
        ⟨Except.error AuthCeremonyError.counterReplayDetected, store, 0, 0⟩) ∧
    (n = 0 → pk.counter = 0 →
      ∃ pk', (authFinish now bodyMeta n pk store).result = Except.ok pk' ∧
        pk'.counter = 0 ∧
        (authFinish now bodyMeta n pk store).store =
          store.map (fun q => if q.id = pk.id then pk' else q)) := by
  constructor
  · intro h1 h2
    unfold authFinish
    rw [if_pos ⟨h1, h2⟩]
  · intro hn hc
    have hcond : ¬(n ≤ pk.counter ∧ ¬(n = 0 ∧ pk.counter = 0)) := by
      simp [hn, hc]
    unfold authFinish
    rw [if_neg hcond]
    exact ⟨_, rfl, hn, rfl⟩

/-- Witness for C1: a replayed counter (3 against stored 5) is
rejected with the store untouched, and a non-counting authenticator
(0 against stored 0) authenticates with counter still 0. -/
theorem counter_replay_check_witness :
    authFinish 1000 [] 3 sampleAuthPasskey [sampleAuthPasskey] =
      ⟨Except.error AuthCeremonyError.counterReplayDetected,
        [sampleAuthPasskey], 0, 0⟩ ∧
    ∃ pk',
      (authFinish 1000 [] 0 zeroCounterPasskey [zeroCounterPasskey]).result =
        Except.ok pk' ∧
      pk'.counter = 0 ∧
      (authFinish 1000 [] 0 zeroCounterPasskey [zeroCounterPasskey]).store =
        [zeroCounterPasskey].map
          (fun q => if q.id = zeroCounterPasskey.id then pk' else q) :=
  ⟨(counter_replay_check 1000 [] 3 sampleAuthPasskey [sampleAuthPasskey]).1
      (by decide) (by decide),
    (counter_replay_check 1000 [] 0 zeroCounterPasskey
      [zeroCounterPasskey]).2 rfl rfl⟩

/-- Claim C5, counterexample: on a ceremony whose credential has
`null` (absent) stored metadata, authentication proceeds but no
warning is recorded (`warnings = 0`), contradicting the claim that a
warning is recorded for null/absent metadata.  This matches the
unit test of the endpoint, which asserts `logger.warn` is not called for
null metadata. -/
theorem metadata_null_no_warning_counterexample :
    (authFinish 1000 [("lastLocation", "mobile-app"), ("appVersion", "1.0.0")]
        1 nullMetaPasskey [nullMetaPasskey]).warnings = 0 ∧
    ∃ pk',
      (authFinish 1000 [("lastLocation", "mobile-app"), ("appVersion", "1.0.0")]
          1 nullMetaPasskey [nullMetaPasskey]).result = Except.ok pk' :=
  ⟨rfl, ⟨_, rfl⟩⟩

/-- Helper: merging over an empty existing object yields exactly the
request-supplied fields followed by the `lastAuthenticationAt`
timestamp. -/
theorem mergedAuthMetadata_nil (body : List (String × String)) (now : Int) :
    mergedAuthMetadata [] body now =
      body.filter (fun kv => kv.1 ≠ "lastAuthenticationAt") ++
        [("lastAuthenticationAt", isoTimestamp now)] := by
  unfold mergedAuthMetadata jsMerge
  simp only [List.filter_nil, List.nil_append]
  congr 1
  apply List.filter_congr
  intro kv _
  by_cases h : kv.1 = "lastAuthenticationAt"
  · simp [List.lookup, h]
  · have hb : (kv.1 == "lastAuthenticationAt") = false :=
      beq_eq_false_iff_ne.mpr h
    simp [List.lookup, hb, h]

/-- Claim C5, amended: on an authentication ceremony whose
credential has stored metadata that is corrupted (unparseable) or
null/absent, the ceremony does not abort: the existing metadata is
treated as an empty object, the persisted merged metadata contains
exactly the fields supplied in the current request plus a
`lastAuthenticationAt` timestamp, and a warning is recorded exactly
when the stored metadata was present but unparseable (no warning for
null/absent metadata). -/
theorem metadata_merge_resilient (now : Int)
    (bodyMeta : List (String × String)) (n : Nat) (pk : AuthPasskey)
    (store : List AuthPasskey)
    (hmeta : pk.metadata = StoredMetadata.absent ∨
      ∃ raw, pk.metadata = StoredMetadata.corrupted raw)
    (hcounter : ¬(n ≤ pk.counter ∧ ¬(n = 0 ∧ pk.counter = 0))) :
    ∃ pk', (authFinish now bodyMeta n pk store).result = Except.ok pk' ∧
      pk'.metadata = StoredMetadata.object
        (bodyMeta.filter (fun kv => kv.1 ≠ "lastAuthenticationAt") ++
          [("lastAuthenticationAt", isoTimestamp now)]) ∧
      ((authFinish now bodyMeta n pk store).warnings = 1 ↔
        ∃ raw, pk.metadata = StoredMetadata.corrupted raw) ∧
      (authFinish now bodyMeta n pk store).updates = 1 := by
  rcases hmeta with hm | ⟨raw, hm⟩
  · have hparse : parseStoredMetadata pk.metadata = ([], false) := by
      rw [hm]
      rfl
    have hout : authFinish now bodyMeta n pk store =
        ⟨Except.ok (updatedPasskey now bodyMeta n pk),
          store.map (fun q => if q.id = pk.id then
            updatedPasskey now bodyMeta n pk else q), 1, 0⟩ := by
      unfold authFinish
      rw [if_neg hcounter, hparse]
      rfl
    refine ⟨updatedPasskey now bodyMeta n pk, by rw [hout], ?_, ?_,
      by rw [hout]⟩
    · unfold updatedPasskey
      rw [hparse]
      rw [show (([], false) : List (String × String) × Bool).1 = [] from rfl]
      rw [mergedAuthMetadata_nil]
    · rw [hout, hm]
      simp
  · have hparse : parseStoredMetadata pk.metadata = ([], true) := by
      rw [hm]
      rfl
    have hout : authFinish now bodyMeta n pk store =
        ⟨Except.ok (updatedPasskey now bodyMeta n pk),
          store.map (fun q => if q.id = pk.id then
            updatedPasskey now bodyMeta n pk else q), 1, 1⟩ := by
      unfold authFinish
      rw [if_neg hcounter, hparse]
      rfl
    refine ⟨updatedPasskey now bodyMeta n pk, by rw [hout], ?_, ?_,
      by rw [hout]⟩
    · unfold updatedPasskey
      rw [hparse]
      rw [show (([], true) : List (String × String) × Bool).1 = [] from rfl]
      rw [mergedAuthMetadata_nil]
    · rw [hout, hm]
      simp

/-- Witness for the amended C5 on the corrupted-metadata sample: the
ceremony succeeds, the persisted metadata is exactly the two request
fields plus the timestamp, one warning is recorded, one write is
performed. -/
theorem metadata_merge_resilient_witness :
    ∃ pk',
      (authFinish 1000
          [("lastLocation", "mobile-app"), ("appVersion", "1.0.0")] 1
          corruptedMetaPasskey [corruptedMetaPasskey]).result =
        Except.ok pk' ∧
      pk'.metadata = StoredMetadata.object
        (([("lastLocation", "mobile-app"), ("appVersion", "1.0.0")]).filter
            (fun kv => kv.1 ≠ "lastAuthenticationAt") ++
          [("lastAuthenticationAt", isoTimestamp 1000)]) ∧
      ((authFinish 1000
          [("lastLocation", "mobile-app"), ("appVersion", "1.0.0")] 1
          corruptedMetaPasskey [corruptedMetaPasskey]).warnings = 1 ↔
        ∃ raw, corruptedMetaPasskey.metadata =
          StoredMetadata.corrupted raw) ∧
      (authFinish 1000
          [("lastLocation", "mobile-app"), ("appVersion", "1.0.0")] 1
          corruptedMetaPasskey [corruptedMetaPasskey]).updates = 1 :=
  metadata_merge_resilient 1000
    [("lastLocation", "mobile-app"), ("appVersion", "1.0.0")] 1
    corruptedMetaPasskey [corruptedMetaPasskey]
    (Or.inr ⟨"not-valid-json", rfl⟩) (by decide)

end ExpoPasskey
